import Mathlib

/-!
# JSON-schema parse contexts (`common/web/SchemaParseContext.h`)

A shallow embedding of the inline code of `SchemaParseContext.h`: the optional
value holder `OptionalItem<T>`, the keyword-tracking `BaseParseContext`, the
inline handlers of `DefinitionsParseContext`, the constructor of
`SchemaParseContext`, and the `RequiredPropertiesParseContext`.

Conventions of the embedding:

* a C++ object is a Lean structure holding its data members, under the member
  names of the source; a non-`const` member function returns the new object
  (next to its return value, if any), a `const` member function only reads;
* a `SchemaErrorLogger *` argument is threaded through explicitly: a handler
  receives the sink and returns the sink it leaves behind;
* raw and owning pointers (`SchemaDefinitions *`, `std::auto_ptr<...>`,
  `SchemaParseContextInterface *`) are optional handles, `none` being `NULL`;
  nothing modelled here dereferences one;
* `uint32_t`/`uint64_t` values are `Nat`, `int32_t`/`int64_t` values are `Int`;
  no arithmetic is performed on them by the code modelled here.
-/

namespace ola.web

/-! ## Collaborators that are declared in other headers -/

/-- Modelled from the spec: the error sink (`SchemaErrorLogger`, declared in
`common/web/SchemaErrorLogger.h`, which is not among the sources). The spec
says it receives "one call per detected problem"; the model keeps the
problems reported so far, newest last. -/
structure SchemaErrorLogger where
  errors : List String
deriving DecidableEq, Repr

/-- Modelled from the spec: the declared JSON type (`JsonType`, declared in
`ola/web/JsonSchema.h`, which is not among the sources): "one of null,
boolean, integer, number, string, array, object, undefined (not yet
declared)". The header only names the enumerator `JSON_UNDEFINED`. -/
inductive JsonType
  | JSON_ARRAY
  | JSON_BOOLEAN
  | JSON_INTEGER
  | JSON_NULL
  | JSON_NUMBER
  | JSON_OBJECT
  | JSON_STRING
  | JSON_UNDEFINED
deriving DecidableEq, Repr

/-- A pointer value: `none` is `NULL`, `some a` points at the object `a`. -/
abbrev Ptr := Option Nat

/-! ## `OptionalItem<T>` (lines 46-64) -/

/-- The class `template <typename T> class OptionalItem`: a presence flag and
a stored value. -/
structure OptionalItem (T : Type) where
  m_is_set : Bool
  m_value : T
deriving DecidableEq, Repr

/-- The constructor `OptionalItem() : m_is_set(false) {}`. The member `m_value`
is default-initialised; `init` is what that leaves in it (the empty string for
`std::string`, an indeterminate value for `bool` and `uint64_t`). -/
def OptionalItem.new {T : Type} (init : T) : OptionalItem T :=
  { m_is_set := false, m_value := init }

/-- The member `void Reset() { m_is_set = false; }`. -/
def OptionalItem.Reset {T : Type} (h : OptionalItem T) : OptionalItem T :=
  { h with m_is_set := false }

/-- The member `void Set(const T &value) { m_is_set = true; m_value = value; }`. -/
def OptionalItem.Set {T : Type} (h : OptionalItem T) (value : T) : OptionalItem T :=
  { h with m_is_set := true, m_value := value }

/-- The member `bool IsSet() const { return m_is_set; }`. -/
def OptionalItem.IsSet {T : Type} (h : OptionalItem T) : Bool :=
  h.m_is_set

/-- The member `const T& Value() const { return m_value; }`. -/
def OptionalItem.Value {T : Type} (h : OptionalItem T) : T :=
  h.m_value

/-- One mutating call on an `OptionalItem<T>`: `Set(v)` or `Reset()`. -/
inductive OptionalItemOp (T : Type)
  | set (value : T)
  | reset
deriving DecidableEq, Repr

/-- Perform one mutating call. -/
def OptionalItem.apply {T : Type} (h : OptionalItem T) : OptionalItemOp T → OptionalItem T
  | OptionalItemOp.set value => h.Set value
  | OptionalItemOp.reset => h.Reset

/-- Perform a sequence of mutating calls, first call first. -/
def OptionalItem.run {T : Type} (h : OptionalItem T) (ops : List (OptionalItemOp T)) :
    OptionalItem T :=
  ops.foldl OptionalItem.apply h

/-! ## `BaseParseContext` (lines 93-127) -/

/-- The class `BaseParseContext`: its only data member is
`OptionalItem<std::string> m_keyword`. -/
structure BaseParseContext where
  m_keyword : OptionalItem String
deriving DecidableEq, Repr

/-- The constructor `BaseParseContext()`: `m_keyword` is default-constructed,
its `std::string` being empty. -/
def BaseParseContext.new : BaseParseContext :=
  { m_keyword := OptionalItem.new "" }

/-- The member `void ObjectKey(SchemaErrorLogger *logger, const std::string &keyword)`:
`m_keyword.Set(keyword); (void) logger;`. -/
def BaseParseContext.ObjectKey (ctx : BaseParseContext) (logger : SchemaErrorLogger)
    (keyword : String) : BaseParseContext × SchemaErrorLogger :=
  ({ ctx with m_keyword := ctx.m_keyword.Set keyword }, logger)

/-- The member `bool HasKeyword() const { return m_keyword.IsSet(); }`. -/
def BaseParseContext.HasKeyword (ctx : BaseParseContext) : Bool :=
  ctx.m_keyword.IsSet

/-- The member `std::string TakeKeyword()`: copies `m_keyword.Value()`, then
`m_keyword.Reset()`, then returns the copy. -/
def BaseParseContext.TakeKeyword (ctx : BaseParseContext) : String × BaseParseContext :=
  let keyword := ctx.m_keyword.Value
  (keyword, { ctx with m_keyword := ctx.m_keyword.Reset })

/-- The member `const std::string& Keyword() const { return m_keyword.Value(); }`. -/
def BaseParseContext.Keyword (ctx : BaseParseContext) : String :=
  ctx.m_keyword.Value

/-! ## `DefinitionsParseContext` (lines 132-171) -/

/-- A scalar value event of `SchemaParseContextInterface`: `String`, the five
overloads of `Number`, `Bool` and `Null`, with the value the tokenizer passes. -/
inductive ScalarEvent
  | string (value : String)
  | numberUInt32 (value : Nat)
  | numberInt32 (value : Int)
  | numberUInt64 (value : Nat)
  | numberInt64 (value : Int)
  | numberDouble (value : Float)
  | bool (value : Bool)
  | null

/-- The class `DefinitionsParseContext : public BaseParseContext`, with its
members `SchemaDefinitions *m_schema_defs` and
`std::auto_ptr<SchemaParseContext> m_current_schema`. -/
structure DefinitionsParseContext extends BaseParseContext where
  m_schema_defs : Ptr
  m_current_schema : Ptr
deriving DecidableEq, Repr

/-- The constructor `DefinitionsParseContext(SchemaDefinitions *definitions)`:
`BaseParseContext(), m_schema_defs(definitions)`; the `auto_ptr` starts null. -/
def DefinitionsParseContext.new (definitions : Ptr) : DefinitionsParseContext :=
  { BaseParseContext.new with m_schema_defs := definitions, m_current_schema := none }

/-- The inherited member `BaseParseContext::ObjectKey`, called on a
`DefinitionsParseContext`. -/
def DefinitionsParseContext.ObjectKey (ctx : DefinitionsParseContext)
    (logger : SchemaErrorLogger) (keyword : String) :
    DefinitionsParseContext × SchemaErrorLogger :=
  let r := ctx.toBaseParseContext.ObjectKey logger keyword
  ({ ctx with toBaseParseContext := r.1 }, r.2)

/-- The member `void Number(SchemaErrorLogger *, uint32_t) {}`. -/
def DefinitionsParseContext.NumberUInt32 (ctx : DefinitionsParseContext)
    (logger : SchemaErrorLogger) (_value : Nat) :
    DefinitionsParseContext × SchemaErrorLogger :=
  (ctx, logger)

/-- The member `void Number(SchemaErrorLogger *, int32_t) {}`. -/
def DefinitionsParseContext.NumberInt32 (ctx : DefinitionsParseContext)
    (logger : SchemaErrorLogger) (_value : Int) :
    DefinitionsParseContext × SchemaErrorLogger :=
  (ctx, logger)

/-- The member `void Number(SchemaErrorLogger *, uint64_t) {}`. -/
def DefinitionsParseContext.NumberUInt64 (ctx : DefinitionsParseContext)
    (logger : SchemaErrorLogger) (_value : Nat) :
    DefinitionsParseContext × SchemaErrorLogger :=
  (ctx, logger)

/-- The member `void Number(SchemaErrorLogger *, int64_t) {}`. -/
def DefinitionsParseContext.NumberInt64 (ctx : DefinitionsParseContext)
    (logger : SchemaErrorLogger) (_value : Int) :
    DefinitionsParseContext × SchemaErrorLogger :=
  (ctx, logger)

/-- The member `void Number(SchemaErrorLogger *, double) {}`. -/
def DefinitionsParseContext.NumberDouble (ctx : DefinitionsParseContext)
    (logger : SchemaErrorLogger) (_value : Float) :
    DefinitionsParseContext × SchemaErrorLogger :=
  (ctx, logger)

/-- The member `void Null(SchemaErrorLogger *logger) { (void) logger; }`. -/
def DefinitionsParseContext.Null (ctx : DefinitionsParseContext)
    (logger : SchemaErrorLogger) : DefinitionsParseContext × SchemaErrorLogger :=
  (ctx, logger)

/-- The member `SchemaParseContextInterface* OpenArray(SchemaErrorLogger *logger)`:
`return NULL;` (the `(void) logger;` after it is never reached). The first
component is the returned child context. -/
def DefinitionsParseContext.OpenArray (ctx : DefinitionsParseContext)
    (logger : SchemaErrorLogger) : Ptr × DefinitionsParseContext × SchemaErrorLogger :=
  (none, ctx, logger)

/-- The member `void CloseArray(SchemaErrorLogger *logger) { (void) logger; }`. -/
def DefinitionsParseContext.CloseArray (ctx : DefinitionsParseContext)
    (logger : SchemaErrorLogger) : DefinitionsParseContext × SchemaErrorLogger :=
  (ctx, logger)

/-- The member `void String(SchemaErrorLogger *, const std::string &) {}`. -/
def DefinitionsParseContext.String (ctx : DefinitionsParseContext)
    (logger : SchemaErrorLogger) (_value : String) :
    DefinitionsParseContext × SchemaErrorLogger :=
  (ctx, logger)

/-- The member `void Bool(SchemaErrorLogger *, bool) {}`. -/
def DefinitionsParseContext.Bool (ctx : DefinitionsParseContext)
    (logger : SchemaErrorLogger) (_value : Bool) :
    DefinitionsParseContext × SchemaErrorLogger :=
  (ctx, logger)

/-- Virtual dispatch of a scalar event to the handler of
`DefinitionsParseContext` that the tokenizer calls for it. -/
def definitionsScalar (ctx : DefinitionsParseContext) (logger : SchemaErrorLogger) :
    ScalarEvent → DefinitionsParseContext × SchemaErrorLogger
  | ScalarEvent.string value => DefinitionsParseContext.String ctx logger value
  | ScalarEvent.numberUInt32 value => DefinitionsParseContext.NumberUInt32 ctx logger value
  | ScalarEvent.numberInt32 value => DefinitionsParseContext.NumberInt32 ctx logger value
  | ScalarEvent.numberUInt64 value => DefinitionsParseContext.NumberUInt64 ctx logger value
  | ScalarEvent.numberInt64 value => DefinitionsParseContext.NumberInt64 ctx logger value
  | ScalarEvent.numberDouble value => DefinitionsParseContext.NumberDouble ctx logger value
  | ScalarEvent.bool value => DefinitionsParseContext.Bool ctx logger value
  | ScalarEvent.null => DefinitionsParseContext.Null ctx logger

/-! ## `SchemaParseContext` (lines 176-299): constructor and data members -/

/-- The contents of the scalar members that the constructor of
`SchemaParseContext` does not initialise: `m_keyword` and the `m_value` of
every `OptionalItem<bool>` and `OptionalItem<uint64_t>`. The type
`SchemaKeyword` is declared in `common/web/SchemaKeywords.h`, which is not
among the sources, and is a parameter. -/
structure SchemaUninitialised (SchemaKeyword : Type) where
  keyword : SchemaKeyword
  exclusive_maximum : Bool
  exclusive_minimum : Bool
  max_length : Nat
  min_length : Nat
  additional_items : Bool
  max_items : Nat
  min_items : Nat
  unique_items : Bool
  max_properties : Nat
  min_properties : Nat

/-- The data members of the class `SchemaParseContext`, in declaration order. -/
structure SchemaParseContext (SchemaKeyword : Type) where
  m_schema_defs : Ptr
  m_keyword : SchemaKeyword
  m_id : OptionalItem String
  m_schema : OptionalItem String
  m_exclusive_maximum : OptionalItem Bool
  m_exclusive_minimum : OptionalItem Bool
  m_pattern : OptionalItem String
  m_max_length : OptionalItem Nat
  m_min_length : OptionalItem Nat
  m_additional_items : OptionalItem Bool
  m_additional_items_context : Ptr
  m_items_single_context : Ptr
  m_items_context_array : Ptr
  m_max_items : OptionalItem Nat
  m_min_items : OptionalItem Nat
  m_unique_items : OptionalItem Bool
  m_max_properties : OptionalItem Nat
  m_min_properties : OptionalItem Nat
  m_required_items : Ptr
  m_type : JsonType
  m_description : OptionalItem String
  m_title : OptionalItem String
  m_ref_schema : OptionalItem String
  m_format : OptionalItem String
  m_definitions_context : Ptr
  m_properties_context : Ptr

/-- The constructor `SchemaParseContext(SchemaDefinitions *definitions)`:
`m_schema_defs(definitions), m_type(JSON_UNDEFINED)`; every other member is
default-initialised: each `OptionalItem` by its own constructor, each
`auto_ptr` to null, `m_keyword` not at all. -/
def SchemaParseContext.new {SchemaKeyword : Type} (definitions : Ptr)
    (u : SchemaUninitialised SchemaKeyword) : SchemaParseContext SchemaKeyword :=
  { m_schema_defs := definitions
    m_keyword := u.keyword
    m_id := OptionalItem.new ""
    m_schema := OptionalItem.new ""
    m_exclusive_maximum := OptionalItem.new u.exclusive_maximum
    m_exclusive_minimum := OptionalItem.new u.exclusive_minimum
    m_pattern := OptionalItem.new ""
    m_max_length := OptionalItem.new u.max_length
    m_min_length := OptionalItem.new u.min_length
    m_additional_items := OptionalItem.new u.additional_items
    m_additional_items_context := none
    m_items_single_context := none
    m_items_context_array := none
    m_max_items := OptionalItem.new u.max_items
    m_min_items := OptionalItem.new u.min_items
    m_unique_items := OptionalItem.new u.unique_items
    m_max_properties := OptionalItem.new u.max_properties
    m_min_properties := OptionalItem.new u.min_properties
    m_required_items := none
    m_type := JsonType.JSON_UNDEFINED
    m_description := OptionalItem.new ""
    m_title := OptionalItem.new ""
    m_ref_schema := OptionalItem.new ""
    m_format := OptionalItem.new ""
    m_definitions_context := none
    m_properties_context := none }

/-! ## `RequiredPropertiesParseContext` (lines 390-424) -/

/-- The type `typedef std::set<std::string> RequiredItems`: the elements in
iteration order, which is strictly ascending in `operator<` of `std::string`. -/
abbrev RequiredItems := List String

/-- The empty `std::set`. -/
def RequiredItems.empty : RequiredItems := []

/-- The call `std::set<std::string>::insert(value)`: the element is placed at
its position in the order, and nothing changes when an equal element is
already there. -/
def RequiredItems.insert (value : String) : RequiredItems → RequiredItems
  | [] => [value]
  | y :: ys =>
    if value < y then value :: y :: ys
    else if y < value then y :: RequiredItems.insert value ys
    else y :: ys

/-- The call `std::set<std::string>::size()`. -/
def RequiredItems.size (items : RequiredItems) : Nat := items.length

/-- The class `RequiredPropertiesParseContext : public BaseParseContext`, with
its member `RequiredItems m_required_items`. -/
structure RequiredPropertiesParseContext extends BaseParseContext where
  m_required_items : RequiredItems
deriving DecidableEq, Repr

/-- The constructor `RequiredPropertiesParseContext() : BaseParseContext() {}`;
the set starts empty. -/
def RequiredPropertiesParseContext.new : RequiredPropertiesParseContext :=
  { BaseParseContext.new with m_required_items := RequiredItems.empty }

/-- Modelled from the spec: the body of
`RequiredPropertiesParseContext::GetRequiredItems(RequiredItems *required_items)`,
which the header only declares. The spec: the terminal operation "returns the
accumulated set". The result is the content written to `*required_items`. -/
def RequiredPropertiesParseContext.GetRequiredItems
    (ctx : RequiredPropertiesParseContext) : RequiredItems :=
  ctx.m_required_items

/-- Modelled from the spec: the body of
`RequiredPropertiesParseContext::String(SchemaErrorLogger *, const std::string &)`,
which the header only declares. The spec: "Each string event inserts into a
set; duplicate strings collapse (set semantics, no error raised for
repeats)". -/
def RequiredPropertiesParseContext.String (ctx : RequiredPropertiesParseContext)
    (logger : SchemaErrorLogger) (value : String) :
    RequiredPropertiesParseContext × SchemaErrorLogger :=
  ({ ctx with m_required_items := RequiredItems.insert value ctx.m_required_items }, logger)

/-- A sequence of string events delivered to a Required-properties context,
first event first. -/
def requiredStrings (ctx : RequiredPropertiesParseContext) (logger : SchemaErrorLogger)
    (values : List String) : RequiredPropertiesParseContext × SchemaErrorLogger :=
  values.foldl (fun s value => RequiredPropertiesParseContext.String s.1 s.2 value)
    (ctx, logger)

/-! ## Auxiliary facts -/

theorem OptionalItem.run_concat {T : Type} (h : OptionalItem T)
    (ops : List (OptionalItemOp T)) (op : OptionalItemOp T) :
    h.run (ops ++ [op]) = (h.run ops).apply op := by
  simp [OptionalItem.run, List.foldl_append]

theorem RequiredItems.mem_insert (s value : String) (items : RequiredItems) :
    s ∈ RequiredItems.insert value items ↔ s = value ∨ s ∈ items := by
  induction items with
  | nil => simp [RequiredItems.insert]
  | cons y ys ih =>
    unfold RequiredItems.insert
    by_cases h1 : value < y
    · simp [h1]
    · by_cases h2 : y < value
      · simp only [h1, h2, if_false, if_true, List.mem_cons, ih]
        tauto
      · have hy : value = y := le_antisymm (not_lt.mp h2) (not_lt.mp h1)
        subst hy
        simp only [h1, if_false, List.mem_cons]
        tauto

theorem RequiredItems.insert_ascending (value : String) (items : RequiredItems)
    (hs : List.Pairwise (fun a b => a < b) items) :
    List.Pairwise (fun a b => a < b) (RequiredItems.insert value items) := by
  induction items with
  | nil => simp [RequiredItems.insert]
  | cons y ys ih =>
    have hy := List.pairwise_cons.mp hs
    unfold RequiredItems.insert
    by_cases h1 : value < y
    · simp only [h1, if_true]
      refine List.pairwise_cons.mpr ⟨?_, hs⟩
      intro z hz
      rcases List.mem_cons.mp hz with rfl | hz
      · exact h1
      · exact lt_trans h1 (hy.1 z hz)
    · by_cases h2 : y < value
      · simp only [h1, h2, if_false, if_true]
        refine List.pairwise_cons.mpr ⟨?_, ih hy.2⟩
        intro z hz
        rcases (RequiredItems.mem_insert z value ys).mp hz with rfl | hz
        · exact h2
        · exact hy.1 z hz
      · simp only [h1, h2, if_false]
        exact hs

theorem requiredStrings_logger (ctx : RequiredPropertiesParseContext)
    (logger : SchemaErrorLogger) (values : List String) :
    (requiredStrings ctx logger values).2 = logger := by
  induction values generalizing ctx with
  | nil => rfl
  | cons v vs ih =>
    simp only [requiredStrings, List.foldl_cons] at ih ⊢
    exact ih _

theorem requiredStrings_mem (ctx : RequiredPropertiesParseContext)
    (logger : SchemaErrorLogger) (values : List String) (s : String) :
    s ∈ (requiredStrings ctx logger values).1.m_required_items ↔
      s ∈ values ∨ s ∈ ctx.m_required_items := by
  induction values generalizing ctx with
  | nil => simp [requiredStrings]
  | cons v vs ih =>
    simp only [requiredStrings, List.foldl_cons, RequiredPropertiesParseContext.String] at ih ⊢
    rw [ih]
    simp only [RequiredItems.mem_insert, List.mem_cons]
    tauto

theorem requiredStrings_ascending (ctx : RequiredPropertiesParseContext)
    (logger : SchemaErrorLogger) (values : List String)
    (hs : List.Pairwise (fun a b => a < b) ctx.m_required_items) :
    List.Pairwise (fun a b => a < b)
      (requiredStrings ctx logger values).1.m_required_items := by
  induction values generalizing ctx with
  | nil => simpa [requiredStrings] using hs
  | cons v vs ih =>
    simp only [requiredStrings, List.foldl_cons, RequiredPropertiesParseContext.String] at ih ⊢
    apply ih
    exact RequiredItems.insert_ascending v _ hs

theorem ascending_nodup (items : List String)
    (hs : List.Pairwise (fun a b => a < b) items) : items.Nodup := by
  refine List.Pairwise.imp ?_ hs
  intro a b hab
  exact ne_of_lt hab

/-! ## The optional value holder -/

/-- Claim C1: for every holder `h`, set or unset and whatever it stores, and
every value `v`, after `h.Set(v)` the holder is present and holds `v`:
`IsSet()` returns true and `Value()` returns `v`. -/
theorem optionalItem_set_present {T : Type} (h : OptionalItem T) (v : T) :
    (h.Set v).IsSet = true ∧ (h.Set v).Value = v :=
  ⟨rfl, rfl⟩

/-- Claim C2: for every sequence of `Set(v)` and `Reset()` calls applied to a
newly constructed holder (whatever its default-initialised content), `IsSet()`
is true exactly when the sequence is non-empty and its last call is a `Set`.
In particular a new holder is absent, `Reset()` makes every holder absent, and
a holder set to any value (zero, false and empty included) is present, so its
`IsSet()` differs from that of a new holder. -/
theorem optionalItem_isSet_iff_last_call_set {T : Type} (init : T)
    (ops : List (OptionalItemOp T)) :
    (((OptionalItem.new init).run ops).IsSet = true ↔
        (ops ≠ [] ∧ ∃ v, ops.getLast? = some (OptionalItemOp.set v)))
      ∧ (OptionalItem.new init).IsSet = false
      ∧ (∀ h : OptionalItem T, h.Reset.IsSet = false)
      ∧ (∀ (h : OptionalItem T) (v : T),
          (h.Set v).IsSet = true ∧ (h.Set v).IsSet ≠ (OptionalItem.new v).IsSet) := by
  refine ⟨?_, rfl, fun _ => rfl, fun _ _ => ⟨rfl, by simp [OptionalItem.Set, OptionalItem.IsSet, OptionalItem.new]⟩⟩
  rcases List.eq_nil_or_concat ops with rfl | ⟨front, op, rfl⟩
  · simp [OptionalItem.run, OptionalItem.new, OptionalItem.IsSet]
  · rw [List.concat_eq_append, OptionalItem.run_concat]
    cases op with
    | set value =>
      simp [OptionalItem.apply, OptionalItem.Set, OptionalItem.IsSet]
    | reset =>
      simp [OptionalItem.apply, OptionalItem.Reset, OptionalItem.IsSet]

/-! ## The keyword-tracking base context -/

/-- Claim C3: for every base context state and every key name `n`, after
`ObjectKey(n)` the pending keyword is `n`: `HasKeyword()` is true and
`Keyword()` returns `n`, whatever keyword was pending before. `Keyword()` is a
`const` member, so the context after the peek is the context before it, on
which `HasKeyword()` is true. -/
theorem objectKey_sets_pending_keyword (ctx : BaseParseContext)
    (logger : SchemaErrorLogger) (n : String) :
    (ctx.ObjectKey logger n).1.HasKeyword = true
      ∧ (ctx.ObjectKey logger n).1.Keyword = n
      ∧ (ctx.ObjectKey logger n).1.m_keyword = { m_is_set := true, m_value := n } :=
  ⟨rfl, rfl, rfl⟩

/-- Claim C4: for every base context on which `ObjectKey(n)` was the last
keyword operation, `TakeKeyword()` returns `n` and clears the pending keyword:
`HasKeyword()` is false on the context it leaves. -/
theorem takeKeyword_returns_and_clears (ctx : BaseParseContext)
    (logger : SchemaErrorLogger) (n : String) :
    (ctx.ObjectKey logger n).1.TakeKeyword.1 = n
      ∧ (ctx.ObjectKey logger n).1.TakeKeyword.2.HasKeyword = false :=
  ⟨rfl, rfl⟩

/-- Claim C7: an object-key event is never an error by itself: for every base
context state, one with a keyword already pending included, `ObjectKey(n)`
leaves the error sink unchanged and records `n` as the pending keyword. -/
theorem objectKey_reports_nothing (ctx : BaseParseContext)
    (logger : SchemaErrorLogger) (n : String) :
    (ctx.ObjectKey logger n).2 = logger
      ∧ (ctx.ObjectKey logger n).1.HasKeyword = true
      ∧ (ctx.ObjectKey logger n).1.Keyword = n
      ∧ (∀ m : String,
          ((ctx.ObjectKey logger m).1.ObjectKey (ctx.ObjectKey logger m).2 n).2 = logger
          ∧ ((ctx.ObjectKey logger m).1.ObjectKey (ctx.ObjectKey logger m).2 n).1.Keyword = n) :=
  ⟨rfl, rfl, rfl, fun _ => ⟨rfl, rfl⟩⟩

/-- Claim C10: clearing a holder does not erase its stored value: for every
`v`, after `Set(v)` then `Reset()`, `Value()` still returns `v`. Consequently,
for every key `n`, after `ObjectKey(n)` two consecutive `TakeKeyword()` calls
both return `n`, the second one on a context whose `HasKeyword()` is false. -/
theorem reset_keeps_stored_value {T : Type} (h : OptionalItem T) (v : T)
    (ctx : BaseParseContext) (logger : SchemaErrorLogger) (n : String) :
    (h.Set v).Reset.Value = v
      ∧ (h.Set v).Reset.IsSet = false
      ∧ (ctx.ObjectKey logger n).1.TakeKeyword.1 = n
      ∧ (ctx.ObjectKey logger n).1.TakeKeyword.2.HasKeyword = false
      ∧ (ctx.ObjectKey logger n).1.TakeKeyword.2.TakeKeyword.1 = n :=
  ⟨rfl, rfl, rfl, rfl, rfl⟩

/-! ## The Definitions context -/

/-- Claim C5, as stated, fails: in a new Definitions context, after
`ObjectKey("minimum")` followed by the event `String("x")`, `HasKeyword()` is
not false. -/
theorem definitions_string_keeps_keyword_pending :
    ¬ ((DefinitionsParseContext.String
          ((DefinitionsParseContext.new none).ObjectKey
            (SchemaErrorLogger.mk []) "minimum").1
          (SchemaErrorLogger.mk []) "x").1.HasKeyword = false) := by
  decide

/-- Claim C5, amended: in a Definitions context a scalar event (`String`, each
`Number` overload, `Bool`, `Null`) leaves the pending keyword as it is: for
every key `n`, after `ObjectKey(n)` followed by one such event, `HasKeyword()`
is still true and `Keyword()` still returns `n`. -/
theorem definitions_scalar_leaves_keyword (ctx : DefinitionsParseContext)
    (logger : SchemaErrorLogger) (n : String) (ev : ScalarEvent) :
    (definitionsScalar (ctx.ObjectKey logger n).1 (ctx.ObjectKey logger n).2 ev).1.HasKeyword
        = true
      ∧ (definitionsScalar (ctx.ObjectKey logger n).1 (ctx.ObjectKey logger n).2 ev).1.Keyword
        = n := by
  cases ev <;> exact ⟨rfl, rfl⟩

/-- Claim C6, as stated, fails: in a Definitions context with the pending
definition name "foo" and an empty error sink, the event `String("x")` leaves
the sink empty, so no error is reported. -/
theorem definitions_string_reports_nothing :
    ¬ ((DefinitionsParseContext.String
          ((DefinitionsParseContext.new none).ObjectKey
            (SchemaErrorLogger.mk []) "foo").1
          (SchemaErrorLogger.mk []) "x").2 ≠ SchemaErrorLogger.mk []) := by
  decide

/-- Claim C6, amended: in a Definitions context a non-object value under a
definition name (a string, number, bool, null, or an array-open) is ignored
without a report: for every context state the event leaves the error sink and
the context unchanged and creates no child context (`OpenArray` returns no
context); `CloseArray` does the same. -/
theorem definitions_non_object_ignored (ctx : DefinitionsParseContext)
    (logger : SchemaErrorLogger) :
    (∀ ev : ScalarEvent, definitionsScalar ctx logger ev = (ctx, logger))
      ∧ (ctx.OpenArray logger).1 = none
      ∧ (ctx.OpenArray logger).2 = (ctx, logger)
      ∧ ctx.CloseArray logger = (ctx, logger) := by
  refine ⟨?_, rfl, rfl, rfl⟩
  intro ev
  cases ev <;> rfl

/-! ## The Required-properties context -/

/-- Claim C8: in a Required-properties context, for every sequence of string
events, the collected required items are exactly the set of distinct strings
received: the items hold no duplicate, a string is among them exactly when it
was received, their number is the number of distinct strings received, and
the error sink is unchanged. The strings "a", "a", "b" yield the set of "a"
and "b", of size 2. -/
theorem required_items_are_the_distinct_strings (logger : SchemaErrorLogger)
    (values : List String) :
    (requiredStrings RequiredPropertiesParseContext.new logger values).1.GetRequiredItems.Nodup
      ∧ (∀ s : String,
          s ∈ (requiredStrings RequiredPropertiesParseContext.new logger
                values).1.GetRequiredItems ↔ s ∈ values)
      ∧ RequiredItems.size
          (requiredStrings RequiredPropertiesParseContext.new logger values).1.GetRequiredItems
          = values.toFinset.card
      ∧ (requiredStrings RequiredPropertiesParseContext.new logger values).2 = logger
      ∧ (requiredStrings RequiredPropertiesParseContext.new logger
            ["a", "a", "b"]).1.GetRequiredItems = ["a", "b"]
      ∧ RequiredItems.size
          (requiredStrings RequiredPropertiesParseContext.new logger
            ["a", "a", "b"]).1.GetRequiredItems = 2 := by
  have hasc : List.Pairwise (fun a b => a < b)
      (requiredStrings RequiredPropertiesParseContext.new logger values).1.m_required_items :=
    requiredStrings_ascending _ logger values List.Pairwise.nil
  have hnodup := ascending_nodup _ hasc
  have hmem : ∀ s : String,
      s ∈ (requiredStrings RequiredPropertiesParseContext.new logger
            values).1.m_required_items ↔ s ∈ values := by
    intro s
    rw [requiredStrings_mem]
    simp [RequiredPropertiesParseContext.new, RequiredItems.empty]
  have hex : (requiredStrings RequiredPropertiesParseContext.new logger
      ["a", "a", "b"]).1.m_required_items = ["a", "b"] := by
    simp [requiredStrings, RequiredPropertiesParseContext.String,
      RequiredPropertiesParseContext.new, RequiredItems.empty, RequiredItems.insert,
      String.lt_iff_toList_lt]
    decide
  refine ⟨hnodup, hmem, ?_, requiredStrings_logger _ logger values, hex, ?_⟩
  · show List.length
        (requiredStrings RequiredPropertiesParseContext.new logger values).1.m_required_items
        = _
    rw [← List.toFinset_card_of_nodup hnodup]
    congr 1
    ext s
    simp only [List.mem_toFinset]
    exact hmem s
  · show List.length
        (requiredStrings RequiredPropertiesParseContext.new logger
          ["a", "a", "b"]).1.m_required_items = 2
    rw [hex]
    rfl

/-! ## The Schema context -/

/-- Claim C9: a newly constructed Schema context is in the Empty state: for
every definitions cache passed to the constructor (and whatever the
uninitialised scalar members hold), its declared type is `JSON_UNDEFINED` and
the optional value of every keyword (id, $schema, exclusiveMaximum,
exclusiveMinimum, pattern, maxLength, minLength, additionalItems, maxItems,
minItems, uniqueItems, maxProperties, minProperties, description, title, $ref,
format) reports `IsSet()` false. -/
theorem new_schema_context_is_empty {SchemaKeyword : Type} (definitions : Ptr)
    (u : SchemaUninitialised SchemaKeyword) :
    (SchemaParseContext.new definitions u).m_type = JsonType.JSON_UNDEFINED
      ∧ (SchemaParseContext.new definitions u).m_schema_defs = definitions
      ∧ (SchemaParseContext.new definitions u).m_id.IsSet = false
      ∧ (SchemaParseContext.new definitions u).m_schema.IsSet = false
      ∧ (SchemaParseContext.new definitions u).m_exclusive_maximum.IsSet = false
      ∧ (SchemaParseContext.new definitions u).m_exclusive_minimum.IsSet = false
      ∧ (SchemaParseContext.new definitions u).m_pattern.IsSet = false
      ∧ (SchemaParseContext.new definitions u).m_max_length.IsSet = false
      ∧ (SchemaParseContext.new definitions u).m_min_length.IsSet = false
      ∧ (SchemaParseContext.new definitions u).m_additional_items.IsSet = false
      ∧ (SchemaParseContext.new definitions u).m_max_items.IsSet = false
      ∧ (SchemaParseContext.new definitions u).m_min_items.IsSet = false
      ∧ (SchemaParseContext.new definitions u).m_unique_items.IsSet = false
      ∧ (SchemaParseContext.new definitions u).m_max_properties.IsSet = false
      ∧ (SchemaParseContext.new definitions u).m_min_properties.IsSet = false
      ∧ (SchemaParseContext.new definitions u).m_description.IsSet = false
      ∧ (SchemaParseContext.new definitions u).m_title.IsSet = false
      ∧ (SchemaParseContext.new definitions u).m_ref_schema.IsSet = false
      ∧ (SchemaParseContext.new definitions u).m_format.IsSet = false :=
  ⟨rfl, rfl, rfl, rfl, rfl, rfl, rfl, rfl, rfl, rfl, rfl, rfl, rfl, rfl, rfl, rfl, rfl, rfl,
    rfl⟩

end ola.web
